import Mathlib

/-!
Verification development for the TRMNL-Ship-Tracker repository.

The Python sources under `src/` are shallowly embedded below:

* `src/src/utils/formatters.py` / `validators.py` — string formatting and
  coordinate validation (`fmtFixed` models Python `f"{x:.Nf}"` formatting,
  `format_timestamp`, `format_coordinates`, `validate_coordinates`);
* `src/src/config.py` — the `CACHE_TIMEOUT` default;
* `src/src/services/vesselfinder_service.py` — the single-slot vessel-data
  cache (`update_cache`, `is_cache_valid`, `get_cached_data`) and the
  lat/lon field formatting of `get_vessel_data`;
* `src/src/services/display.py` — `DisplayGenerator` geometry and the
  drawing routines (`draw_simple_map`, `draw_ship_info`, `draw_status_bar`,
  `draw_error_state`, `create_display`), with draw calls reified as a list
  of `DrawOp` primitives and Python exceptions as `Option`.

Python `float` values are modelled as exact rationals (`ℚ`); `float(s)`
parsing is `pyFloat`, `int(x)` truncation is `pyInt`, and integer `//` is
`Int.fdiv`.  The map-tile projection, provider fallback chain and render
pipeline described by the specification are absent from `src/`; they are
modelled from the spec's words and marked as such in their doc comments.
-/

/-! ### Basic numeric and string helpers -/

/-- Python `int(x)` applied to a float: truncation toward zero. -/
def pyInt (q : ℚ) : ℤ := if 0 ≤ q then ⌊q⌋ else ⌈q⌉

/-- Value of a list of decimal digit characters (most significant first). -/
def natOfDigits (l : List Char) : ℕ :=
  l.foldl (fun a c => a * 10 + (c.toNat - 48)) 0

/-- Fuel-driven decimal digit expansion of a natural number, most
significant digit first.  The fuel is always at least `1`, so the result
is never empty. -/
def natReprGo : ℕ → ℕ → List Char
  | 0, _ => []
  | f + 1, n => if n < 10 then [Nat.digitChar n]
                else natReprGo f (n / 10) ++ [Nat.digitChar (n % 10)]

/-- Decimal representation of a natural number as characters. -/
def natReprChars (n : ℕ) : List Char := natReprGo (n + 1) n

/-- Left-pad a character list with `'0'` up to length `n`
(models Python zero padding). -/
def padZerosChars (n : ℕ) (l : List Char) : List Char :=
  List.replicate (n - l.length) '0' ++ l

/-- Round a rational to the nearest integer, ties to even
(the rounding used by Python `format`). -/
def roundHalfEven (q : ℚ) : ℤ :=
  let f := ⌊q⌋
  let r := q - (f : ℚ)
  if r < 1 / 2 then f
  else if 1 / 2 < r then f + 1
  else if f % 2 = 0 then f else f + 1

/-- Characters of Python `f"{q:.{prec}f}"` fixed-point formatting. -/
def fmtFixedChars (prec : ℕ) (q : ℚ) : List Char :=
  let sign : List Char := if q < 0 then ['-'] else []
  let n : ℕ := (roundHalfEven (|q| * 10 ^ prec)).toNat
  let ip := n / 10 ^ prec
  let fp := n % 10 ^ prec
  if prec = 0 then sign ++ natReprChars ip
  else sign ++ natReprChars ip ++ '.' :: padZerosChars prec (natReprChars fp)

/-- Python `f"{q:.{prec}f}"` fixed-point formatting. -/
def fmtFixed (prec : ℕ) (q : ℚ) : String := String.mk (fmtFixedChars prec q)

/-- Does `hay` start with `needle`? -/
def listStarts : List Char → List Char → Bool
  | [], _ => true
  | _ :: _, [] => false
  | a :: as, b :: bs => a == b && listStarts as bs

/-- Does `hay` contain `needle` as a contiguous run? -/
def listHasSub (needle : List Char) : List Char → Bool
  | [] => listStarts needle []
  | c :: rest => listStarts needle (c :: rest) || listHasSub needle rest

/-- Substring test on strings (used to state what a drawn image does not
contain). -/
def strHasSub (needle hay : String) : Bool := listHasSub needle.toList hay.toList

/-- Python `str.strip()` (structural model of `String.trim`). -/
def trimChars (l : List Char) : List Char :=
  ((l.dropWhile Char.isWhitespace).reverse.dropWhile Char.isWhitespace).reverse

/-- Fuel-driven worker for `replaceAll`. -/
def replaceAllGo (pat rep : List Char) : ℕ → List Char → List Char
  | 0, l => l
  | _ + 1, [] => []
  | f + 1, c :: rest =>
      if listStarts pat (c :: rest) && !pat.isEmpty then
        rep ++ replaceAllGo pat rep f (List.drop (pat.length - 1) rest)
      else c :: replaceAllGo pat rep f rest

/-- Python `str.replace(old, new)`: replace all non-overlapping occurrences,
left to right (structural model of `String.replace`). -/
def replaceAll (pat rep l : List Char) : List Char := replaceAllGo pat rep l.length l

/-- Python `float(s)`: strip whitespace, optional sign, decimal digits with
at most one dot (at least one digit required), optional decimal exponent.
Returns `none` where Python raises `ValueError`.  (The special forms
`inf`/`nan`, which never occur in this repository's data, are omitted.) -/
def pyFloat (s : String) : Option ℚ :=
  let l := trimChars s.toList
  let sl : ℚ × List Char :=
    match l with
    | '-' :: t => (-1, t)
    | '+' :: t => (1, t)
    | t => (1, t)
  let ip := sl.2.takeWhile Char.isDigit
  let rest := sl.2.dropWhile Char.isDigit
  let fr : List Char × List Char :=
    match rest with
    | '.' :: t => (t.takeWhile Char.isDigit, t.dropWhile Char.isDigit)
    | t => ([], t)
  let hadDot : Bool := match rest with | '.' :: _ => true | _ => false
  let er : Bool × ℤ × List Char :=
    match fr.2 with
    | 'e' :: t =>
        let st : ℤ × List Char :=
          match t with
          | '-' :: u => (-1, u)
          | '+' :: u => (1, u)
          | u => (1, u)
        let ed := st.2.takeWhile Char.isDigit
        (!ed.isEmpty, st.1 * (natOfDigits ed : ℤ), st.2.dropWhile Char.isDigit)
    | 'E' :: t =>
        let st : ℤ × List Char :=
          match t with
          | '-' :: u => (-1, u)
          | '+' :: u => (1, u)
          | u => (1, u)
        let ed := st.2.takeWhile Char.isDigit
        (!ed.isEmpty, st.1 * (natOfDigits ed : ℤ), st.2.dropWhile Char.isDigit)
    | t => (true, 0, t)
  if (ip.isEmpty && (!hadDot || fr.1.isEmpty)) || !er.1 || !er.2.2.isEmpty then
    none
  else
    some (sl.1 * ((natOfDigits ip : ℚ) + (natOfDigits fr.1 : ℚ) / 10 ^ fr.1.length)
          * (10 : ℚ) ^ er.2.1)

/-- Python `range(start, stop, step)` for a positive step, as a list of
integers. -/
def pyRange (start stop step : ℤ) : List ℤ :=
  (List.range ((Int.fdiv (stop - start + step - 1) step).toNat)).map
    (fun i => start + step * (i : ℤ))

/-! ### utils/formatters.py and utils/validators.py -/

/-- Parsed calendar timestamp (the fields `strftime` prints). -/
structure DateTime where
  year : ℕ
  month : ℕ
  day : ℕ
  hour : ℕ
  minute : ℕ
  second : ℕ
deriving DecidableEq, Repr

/-- Read exactly `n` decimal digits from the front of `l`. -/
def takeDigits (l : List Char) (n : ℕ) : Option (ℕ × List Char) :=
  let pre := l.take n
  if pre.length = n && pre.all Char.isDigit then some (natOfDigits pre, l.drop n)
  else none

/-- Expect a specific character at the front of `l`. -/
def expectChar (c : Char) : List Char → Option (List Char)
  | [] => none
  | a :: t => if a = c then some t else none

/-- Gregorian leap-year test (as `datetime` validates days). -/
def isLeap (y : ℕ) : Bool := (y % 4 = 0 && y % 100 ≠ 0) || y % 400 = 0

/-- Number of days in a month, as `datetime` validates the `day` field. -/
def daysInMonth (y m : ℕ) : ℕ :=
  if m = 2 then (if isLeap y then 29 else 28)
  else if m = 4 ∨ m = 6 ∨ m = 9 ∨ m = 11 then 30
  else 31

/-- Field-range validation shared by both timestamp parsers. -/
def validDateTime (dt : DateTime) : Bool :=
  decide (1 ≤ dt.month) && decide (dt.month ≤ 12) &&
  decide (1 ≤ dt.day) && decide (dt.day ≤ daysInMonth dt.year dt.month) &&
  decide (dt.hour ≤ 23) && decide (dt.minute ≤ 59) && decide (dt.second ≤ 61)

/-- Parse `YYYY-MM-DD<sep>HH:MM` and leave the tail for the caller. -/
def parseDateHM (sep : Char) (l : List Char) : Option (DateTime × List Char) := do
  let (y, r1) ← takeDigits l 4
  let r2 ← expectChar '-' r1
  let (mo, r3) ← takeDigits r2 2
  let r4 ← expectChar '-' r3
  let (d, r5) ← takeDigits r4 2
  let r6 ← expectChar sep r5
  let (h, r7) ← takeDigits r6 2
  let r8 ← expectChar ':' r7
  let (mi, r9) ← takeDigits r8 2
  pure (⟨y, mo, d, h, mi, 0⟩, r9)

/-- Model of `datetime.strptime(s, "%Y-%m-%d %H:%M:%S")`: the whole string
must match, and field ranges are validated. -/
def strptimeYmdHMS (s : List Char) : Option DateTime := do
  let (dt, r) ← parseDateHM ' ' s
  let r1 ← expectChar ':' r
  let (sec, r2) ← takeDigits r1 2
  let dt2 : DateTime := { dt with second := sec }
  if r2.isEmpty && validDateTime dt2 then pure dt2 else none

/-- Trailing UTC-offset forms accepted after the time in ISO timestamps
(`Z` has already been replaced by `+00:00` at the call site). -/
def isoOffsetOk (l : List Char) : Bool :=
  match l with
  | [] => true
  | '+' :: t =>
      (match parseOff t with | some r => r.isEmpty | none => false)
  | '-' :: t =>
      (match parseOff t with | some r => r.isEmpty | none => false)
  | _ => false
where
  parseOff (t : List Char) : Option (List Char) := do
    let (oh, u1) ← takeDigits t 2
    let u2 ← expectChar ':' u1
    let (om, u3) ← takeDigits u2 2
    if oh ≤ 23 && om ≤ 59 then pure u3 else none

/-- Model of `datetime.fromisoformat` on the forms this repository emits:
`YYYY-MM-DDTHH:MM[:SS[.ffffff]][±HH:MM]`. -/
def fromisoformatModel (s : List Char) : Option DateTime := do
  let (dt, r) ← parseDateHM 'T' s
  let secTail : ℕ × List Char :=
    match r with
    | ':' :: t =>
        match takeDigits t 2 with
        | some (sec, u) =>
            (match u with
             | '.' :: v =>
                 let fs := v.takeWhile Char.isDigit
                 if 1 ≤ fs.length && fs.length ≤ 6 then (sec, v.dropWhile Char.isDigit)
                 else (sec, '.' :: v)
             | _ => (sec, u))
        | none => (0, ':' :: t)
    | t => (0, t)
  let dt2 : DateTime := { dt with second := secTail.1 }
  if isoOffsetOk secTail.2 && validDateTime dt2 then pure dt2 else none

/-- Output of `dt.strftime("%Y-%m-%d %H:%M UTC")`. -/
def strftimeYmdHM (dt : DateTime) : String :=
  String.mk (padZerosChars 4 (natReprChars dt.year) ++ '-' ::
    padZerosChars 2 (natReprChars dt.month) ++ '-' ::
    padZerosChars 2 (natReprChars dt.day) ++ ' ' ::
    padZerosChars 2 (natReprChars dt.hour) ++ ':' ::
    padZerosChars 2 (natReprChars dt.minute) ++ " UTC".toList)

/-- Model of `formatters.format_timestamp`: re-render an ISO or
`YYYY-MM-DD HH:MM:SS UTC` timestamp as `YYYY-MM-DD HH:MM UTC`; on a parse
failure the input is returned unchanged. -/
def format_timestamp (ts : String) : String :=
  if ts.toList.any (· = 'T') then
    match fromisoformatModel (replaceAll "Z".toList "+00:00".toList ts.toList) with
    | some dt => strftimeYmdHM dt
    | none => ts
  else
    match strptimeYmdHMS (replaceAll " UTC".toList "".toList ts.toList) with
    | some dt => strftimeYmdHM dt
    | none => ts

/-- Model of `formatters.format_coordinates`: absolute values to four
decimal places with hemisphere letters chosen from the sign. -/
def format_coordinates (lat lon : ℚ) : String × String :=
  let lat_dir := if 0 ≤ lat then "N" else "S"
  let lon_dir := if 0 ≤ lon then "E" else "W"
  (fmtFixed 4 |lat| ++ "°" ++ lat_dir, fmtFixed 4 |lon| ++ "°" ++ lon_dir)

/-- Model of `validators.validate_coordinates` on numeric input. -/
def validate_coordinates (lat lon : ℚ) : Bool :=
  decide (-90 ≤ lat) && decide (lat ≤ 90) && decide (-180 ≤ lon) && decide (lon ≤ 180)

/-! ### config.py -/

/-- Default of `Config.CACHE_TIMEOUT` (`os.getenv('CACHE_TIMEOUT', '600')`),
in seconds. -/
def CACHE_TIMEOUT_default : ℚ := 600

/-! ### services/vesselfinder_service.py -/

/-- Cache fields of `VesselFinderService`: one cached record and the time
it was stored (`_cached_data`, `_cache_timestamp`).  Timestamps are seconds
as rationals; the cached payload is abstract. -/
structure CacheState (α : Type) where
  cachedData : Option α
  cacheTimestamp : Option ℚ
deriving DecidableEq, Repr

/-- Initial state set by `__init__` (both fields `None`). -/
def initCache {α : Type} : CacheState α := ⟨none, none⟩

/-- Model of `_update_cache`: overwrite the single slot and stamp it with
the current time. -/
def update_cache {α : Type} (_s : CacheState α) (d : α) (now : ℚ) : CacheState α :=
  ⟨some d, some now⟩

/-- Model of `_is_cache_valid`: a stamp exists and is younger than the
configured timeout. -/
def is_cache_valid {α : Type} (s : CacheState α) (now timeout : ℚ) : Bool :=
  match s.cacheTimestamp with
  | none => false
  | some t => decide (now - t < timeout)

/-- Model of `get_cached_data`: return the record while valid, else `None`.
The method mutates nothing, which the explicit state in the result records. -/
def get_cached_data {α : Type} (s : CacheState α) (now timeout : ℚ) :
    Option α × CacheState α :=
  (if is_cache_valid s now timeout then s.cachedData else none, s)

/-- The `lat` field built by `get_vessel_data`:
`f"{abs(float(ais_data.get('LATITUDE', 0))):.4f}"`. -/
def vessel_lat_field (latitude : ℚ) : String := fmtFixed 4 |latitude|

/-- The `lon` field built by `get_vessel_data`:
`f"{abs(float(ais_data.get('LONGITUDE', 0))):.4f}"`. -/
def vessel_lon_field (longitude : ℚ) : String := fmtFixed 4 |longitude|

/-! ### services/display.py -/

/-- Constructor arguments of `DisplayGenerator` (display size in pixels). -/
structure DisplayGeometry where
  width : ℤ
  height : ℤ
deriving DecidableEq, Repr

/-- `self.border_margin = 20`. -/
def border_margin : ℤ := 20

/-- `self.map_width = width // 2` (Python floor division). -/
def DisplayGeometry.map_width (g : DisplayGeometry) : ℤ := Int.fdiv g.width 2

/-- `self.map_height = height - 60`. -/
def DisplayGeometry.map_height (g : DisplayGeometry) : ℤ := g.height - 60

/-- `self.usable_map_width = self.map_width - (2 * self.border_margin)`. -/
def DisplayGeometry.usable_map_width (g : DisplayGeometry) : ℤ :=
  g.map_width - 2 * border_margin

/-- `self.usable_map_height = self.map_height - (2 * self.border_margin)`. -/
def DisplayGeometry.usable_map_height (g : DisplayGeometry) : ℤ :=
  g.map_height - 2 * border_margin

/-- The generator built by `app.py` with the default configuration
(`DISPLAY_WIDTH = 800`, `DISPLAY_HEIGHT = 480`). -/
def defaultGeometry : DisplayGeometry := ⟨800, 480⟩

/-- `self.coastline_points`: (lat, lon) pairs, copied from the source. -/
def coastline_points : List (ℚ × ℚ) :=
  [(54.7, 64.0), (54.6, 65.0), (54.5, 66.0),
   (54.4, 67.0), (54.3, 68.0), (54.2, 69.0),
   (54.1, 70.0), (54.0, 71.0), (53.9, 72.0),
   (54.9, 66.0), (54.9, 67.0), (54.9, 68.0),
   (54.9, 69.0), (54.9, 70.0), (54.9, 71.0),
   (55.2, 66.0), (55.1, 67.0), (55.0, 68.0),
   (54.9, 69.0), (54.8, 70.0), (54.7, 71.0),
   (55.8, 67.0), (55.7, 67.5), (55.6, 68.0),
   (55.5, 68.5), (55.4, 69.0)]

/-- `self.regions`: geographic labels (lat, lon, name). -/
def regions : List (ℚ × ℚ × String) :=
  [(54.8, 67.2, "TIERRA DEL FUEGO"),
   (54.9, 68.3, "BEAGLE CHANNEL"),
   (55.5, 66.5, "DRAKE PASSAGE")]

/-- One `ImageDraw` primitive issued by the display code. -/
inductive DrawOp : Type
  | rectOutline (x0 y0 x1 y1 : ℤ)
  | rectFill (x0 y0 x1 y1 : ℤ) (color : ℕ)
  | line (x0 y0 x1 y1 : ℤ) (w : ℕ)
  | ellipseOutline (x0 y0 x1 y1 : ℤ)
  | text (x y : ℤ) (s : String) (color : ℕ)
deriving DecidableEq, Repr

/-- The string of a text primitive, if any. -/
def DrawOp.textOf : DrawOp → Option String
  | .text _ _ s _ => some s
  | _ => none

/-- The x-pixel `_draw_simple_map` assigns to longitude `plon` when the ship
is at longitude `lon`: `border + ((plon - lon_min) / (lon_max - lon_min)) *
usable_map_width` with `lon_min, lon_max = lon - 3, lon + 3`. -/
def mapPixelX (g : DisplayGeometry) (lon plon : ℚ) : ℚ :=
  let lon_min := lon - 3
  let lon_max := lon + 3
  (border_margin : ℚ) + ((plon - lon_min) / (lon_max - lon_min)) * (g.usable_map_width : ℚ)

/-- The y-pixel `_draw_simple_map` assigns to latitude `plat` when the ship
is at latitude `lat`: `border + ((lat_max - plat) / (lat_max - lat_min)) *
usable_map_height` with `lat_min, lat_max = lat - 2, lat + 2`. -/
def mapPixelY (g : DisplayGeometry) (lat plat : ℚ) : ℚ :=
  let lat_min := lat - 2
  let lat_max := lat + 2
  (border_margin : ℚ) + ((lat_max - plat) / (lat_max - lat_min)) * (g.usable_map_height : ℚ)

/-- Coastline segments drawn by `_draw_simple_map`: consecutive point pairs,
each drawn only when both endpoints lie inside the 4°×6° view box. -/
def coastlineOps (g : DisplayGeometry) (lat lon : ℚ) : List DrawOp :=
  (coastline_points.zip coastline_points.tail).filterMap (fun pq =>
    let sLat := pq.1.1
    let sLon := pq.1.2
    let eLat := pq.2.1
    let eLon := pq.2.2
    if lon - 3 ≤ sLon ∧ sLon ≤ lon + 3 ∧ lat - 2 ≤ sLat ∧ sLat ≤ lat + 2 ∧
       lon - 3 ≤ eLon ∧ eLon ≤ lon + 3 ∧ lat - 2 ≤ eLat ∧ eLat ≤ lat + 2 then
      some (DrawOp.line (pyInt (mapPixelX g lon sLon)) (pyInt (mapPixelY g lat sLat))
        (pyInt (mapPixelX g lon eLon)) (pyInt (mapPixelY g lat eLat)) 2)
    else none)

/-- Grid lines drawn by `_draw_simple_map` (`grid_spacing = 40`). -/
def gridOps (g : DisplayGeometry) : List DrawOp :=
  (pyRange border_margin (g.map_width - border_margin) 40).map (fun x =>
    DrawOp.line x border_margin x (g.map_height - border_margin) 1) ++
  (pyRange border_margin (g.map_height - border_margin) 40).map (fun y =>
    DrawOp.line border_margin y (g.map_width - border_margin) y 1)

/-- Region labels drawn by `_draw_simple_map` when inside the view box. -/
def regionOps (g : DisplayGeometry) (lat lon : ℚ) : List DrawOp :=
  regions.filterMap (fun r =>
    if lon - 3 ≤ r.2.1 ∧ r.2.1 ≤ lon + 3 ∧ lat - 2 ≤ r.1 ∧ r.1 ≤ lat + 2 then
      some (DrawOp.text (pyInt (mapPixelX g lon r.2.1)) (pyInt (mapPixelY g lat r.1))
        r.2.2 0)
    else none)

/-- The ship marker pixel of `_draw_simple_map`: the ship position mapped
through the same view-box formulas, truncated with `int()`. -/
def markerPixel (g : DisplayGeometry) (lat lon : ℚ) : ℤ × ℤ :=
  (pyInt (mapPixelX g lon lon), pyInt (mapPixelY g lat lat))

/-- Crosshair and circle (`marker_size = 8`) at the ship marker pixel. -/
def markerOps (g : DisplayGeometry) (lat lon : ℚ) : List DrawOp :=
  let x := (markerPixel g lat lon).1
  let y := (markerPixel g lat lon).2
  [DrawOp.line (x - 8) y (x + 8) y 2,
   DrawOp.line x (y - 8) x (y + 8) 2,
   DrawOp.ellipseOutline (x - 8) (y - 8) (x + 8) (y + 8)]

/-- Model of `DisplayGenerator._draw_simple_map`: border, coastlines, grid,
region labels, ship marker, one-decimal coordinate texts and compass rose,
in source order.  The body cannot raise, so the surrounding
`try/except` never reaches its handler. -/
def draw_simple_map (g : DisplayGeometry) (lat lon : ℚ) : List DrawOp :=
  DrawOp.rectOutline border_margin border_margin
      (g.map_width - border_margin) (g.map_height - border_margin) ::
  coastlineOps g lat lon ++ gridOps g ++ regionOps g lat lon ++ markerOps g lat lon ++
  [DrawOp.text (border_margin + 5) (border_margin - 15) (fmtFixed 1 lat ++ "°S") 0,
   DrawOp.text (g.map_width - border_margin - 50) (border_margin - 15)
     (fmtFixed 1 lon ++ "°W") 0,
   DrawOp.text (g.map_width - 20 - 5) (g.map_height - 20 - 5) "N" 0,
   DrawOp.line (g.map_width - 20 - 5 + 8) (g.map_height - 20 - 5 + 15)
     (g.map_width - 20 - 5 + 8) (g.map_height - 20 - 5 + 5) 2]

/-- The `ship_data` dictionary as the display code reads it.  Every value
the display layer consumes is a string; a `none` field is a missing key.
`extra` stands for any further keys (they only affect dict truthiness). -/
structure ShipData where
  connection_status : Option String := none
  lat : Option String := none
  lon : Option String := none
  ship_name : Option String := none
  mmsi : Option String := none
  destination : Option String := none
  speed : Option String := none
  course : Option String := none
  timestamp : Option String := none
  error : Option String := none
  extra : List (String × String) := []
deriving DecidableEq

/-- Python truthiness of the dictionary: `not ship_data` is true exactly
when the dict has no entries. -/
def ShipData.isEmpty (d : ShipData) : Bool :=
  d.connection_status.isNone && d.lat.isNone && d.lon.isNone &&
  d.ship_name.isNone && d.mmsi.isNone && d.destination.isNone &&
  d.speed.isNone && d.course.isNone && d.timestamp.isNone &&
  d.error.isNone && d.extra.isEmpty

/-- Model of `_draw_ship_info`: right-hand panel.  `none` models the
`KeyError` a missing required key raises (propagated to `create_display`). -/
def draw_ship_info (g : DisplayGeometry) (d : ShipData) : Option (List DrawOp) := do
  let name ← d.ship_name
  let mm ← d.mmsi
  let sp ← d.speed
  let co ← d.course
  let la ← d.lat
  let lo ← d.lon
  let x_start := Int.fdiv g.width 2 + 20
  pure [DrawOp.rectFill x_start 30 (g.width - 20) 80 0,
        DrawOp.text (x_start + 10) 45 name 1,
        DrawOp.text x_start 100 ("MMSI: " ++ mm) 0,
        DrawOp.text x_start 130 ("Destination: " ++ d.destination.getD "Unknown") 0,
        DrawOp.text x_start 180 ("Speed: " ++ sp ++ " knots") 0,
        DrawOp.text x_start 210 ("Course: " ++ co ++ "°") 0,
        DrawOp.text x_start 240 ("Position: " ++ la ++ "°S, " ++ lo ++ "°W") 0]

/-- Model of `_draw_status_bar`: bottom bar; a missing `timestamp` key
raises (`none`). -/
def draw_status_bar (g : DisplayGeometry) (d : ShipData) : Option (List DrawOp) := do
  let ts ← d.timestamp
  pure [DrawOp.rectFill 10 (g.height - 40) (g.width - 10) (g.height - 10) 0,
        DrawOp.text 20 (g.height - 30) ("Last Update: " ++ format_timestamp ts) 1]

/-- Model of `_draw_error_state`.  `data and data.get('error')` is Python
truthiness: the message and timestamp lines appear only for present,
non-empty values (a `None`/empty dict has no such values). -/
def draw_error_state (g : DisplayGeometry) (sd : Option ShipData) : List DrawOp :=
  let base := [DrawOp.rectFill 30 30 (g.width - 30) 80 0,
               DrawOp.text 40 40 "Connection Error" 1]
  let error_msg :=
    match sd.bind ShipData.error with
    | some e => if e = "" then "No connection to vessel tracking service"
                else "Error: " ++ e
    | none => "No connection to vessel tracking service"
  let withMsg := base ++ [DrawOp.text 40 100 error_msg 0]
  match sd.bind ShipData.timestamp with
  | some ts =>
      if ts = "" then withMsg
      else withMsg ++ [DrawOp.text 40 140 ("Last successful update: " ++ format_timestamp ts) 0]
  | none => withMsg

/-- The BMP image `create_display` serialises: its pixel size and the
sequence of draw calls that produced it. -/
structure DisplayImage where
  width : ℤ
  height : ℤ
  ops : List DrawOp
deriving DecidableEq

/-- Condition of `if not ship_data or ship_data.get('connection_status') !=
'connected'` in `create_display`. -/
def errorBranch (sd : Option ShipData) : Bool :=
  match sd with
  | none => true
  | some d => d.isEmpty || !(d.connection_status == some "connected")

/-- Model of `DisplayGenerator.create_display`.  The whole body runs under
`try/except Exception: return None`, so an exception inside the connected
branch (missing required key, unparsable `lat`/`lon`) yields `none`; the
error branch draws from optional fields only and always yields an image. -/
def create_display (g : DisplayGeometry) (sd : Option ShipData) : Option DisplayImage :=
  if errorBranch sd then
    some ⟨g.width, g.height, draw_error_state g sd⟩
  else
    match sd with
    | none => none
    | some d => do
        let laS ← d.lat
        let la ← pyFloat laS
        let loS ← d.lon
        let lo ← pyFloat loS
        let infoOps ← draw_ship_info g d
        let statusOps ← draw_status_bar g d
        pure ⟨g.width, g.height, draw_simple_map g la lo ++ infoOps ++ statusOps⟩

/-! ### Components modelled from the specification

The map-tile subsystem the specification describes (Coordinate Projector,
Tile Fetcher, Map Provider Fallback Chain, render state machine) belongs to
other revisions of this repository and is not present under `src/`; the
definitions below are built from the specification's words. -/

/-- Modelled from the spec: a `MapProvider` record of §3 (the provider list
is absent from `src/`). -/
structure MapProvider where
  name : String
  url_template : String
deriving DecidableEq, Repr

/-- Modelled from the spec: the outcome of one `fetch(provider, tile)`
attempt of §4.3 — a tile image (abstracted to a token) or a `FetchError`. -/
inductive FetchOutcome : Type
  | success (tile : ℕ)
  | failure
deriving DecidableEq, Repr

/-- Modelled from the spec: the Fallback Chain of §4.4 (absent from
`src/`): try providers strictly in order, stop at the first success; the
first component records the providers attempted, in order. -/
def fetchWithFallback (fetch : MapProvider → FetchOutcome) :
    List MapProvider → List MapProvider × Option ℕ
  | [] => ([], none)
  | p :: rest =>
      match fetch p with
      | .success t => ([p], some t)
      | .failure =>
          let r := fetchWithFallback fetch rest
          (p :: r.1, r.2)

/-- Modelled from the spec: the latitude bound `±85.05113°` of §4.1 beyond
which the projection must fail. -/
def MAX_LATITUDE : ℚ := 85.05113

/-- Modelled from the spec: the Web Mercator ordinate `ln(tan φ + sec φ)`
of §4.1 (the projection code is absent from `src/`). -/
noncomputable def mercY (φ : ℝ) : ℝ := Real.log (Real.tan φ + 1 / Real.cos φ)

/-- Degrees to radians. -/
noncomputable def deg2rad (q : ℚ) : ℝ := (q : ℝ) * Real.pi / 180

/-- Modelled from the spec: `x = floor((lon+180)/360 * 2^zoom)`. -/
def tile_x (lon : ℚ) (zoom : ℕ) : ℤ := ⌊(lon + 180) / 360 * 2 ^ zoom⌋

/-- Modelled from the spec:
`y = floor((1 - ln(tan(lat_rad) + sec(lat_rad))/π)/2 * 2^zoom)`. -/
noncomputable def tile_y (lat : ℚ) (zoom : ℕ) : ℤ :=
  ⌊(1 - mercY (deg2rad lat) / Real.pi) / 2 * (2 : ℝ) ^ zoom⌋

/-- Modelled from the spec: result of `project(lat, lon, zoom)` of §4.1. -/
inductive ProjectResult : Type
  | tile (zoom : ℕ) (x y : ℤ)
  | outOfRange

/-- Modelled from the spec: the Coordinate Projector of §4.1 — latitudes at
or beyond `±85.05113°` fail with `OutOfRange`, others produce the Web
Mercator tile coordinate. -/
noncomputable def project (lat lon : ℚ) (zoom : ℕ) : ProjectResult :=
  if MAX_LATITUDE ≤ |lat| then .outOfRange
  else .tile zoom (tile_x lon zoom) (tile_y lat zoom)

/-- Modelled from the spec: terminal states of the render state machine of
§4.6 — a composited map or the fallback placeholder. -/
inductive RenderOutcome : Type
  | composited (tile : ℕ)
  | fallbackRender

/-- Modelled from the spec: the render state machine of §4.6 —
`OutOfRange → FALLBACK_RENDER`, otherwise the fetch chain runs and
`AllFailed → FALLBACK_RENDER`. -/
noncomputable def renderPipeline (lat lon : ℚ) (zoom : ℕ)
    (fetch : MapProvider → FetchOutcome) (providers : List MapProvider) :
    RenderOutcome :=
  match project lat lon zoom with
  | .outOfRange => .fallbackRender
  | .tile _ _ _ =>
      match (fetchWithFallback fetch providers).2 with
      | some t => .composited t
      | none => .fallbackRender

/-- The y-pixel a Web-Mercator-consistent rendering of the same latitude
window would assign (spec §4.5: the marker/pixel mapping must be computed
from the SAME projection used to select tiles): the linear interpolation of
`mapPixelY` with the latitude fraction replaced by the Mercator-ordinate
fraction over the window `[latMin, latMax]`. -/
noncomputable def mercPixelY (g : DisplayGeometry) (latMin latMax plat : ℚ) : ℝ :=
  (border_margin : ℝ) +
    (mercY (deg2rad latMax) - mercY (deg2rad plat)) /
      (mercY (deg2rad latMax) - mercY (deg2rad latMin)) * (g.usable_map_height : ℝ)

/-! ### Theorems -/

/-- C2 counterexample: with the code's default timeout
(`CACHE_TIMEOUT = 600`), storing a value at time `0` and reading at time
`700` — strictly less than the claimed 3600-second duration — returns a
cache miss, refuting the claimed `3600` default. -/
theorem cache_get_within_3600_misses :
    (700 : ℚ) - 0 < 3600 ∧
    (get_cached_data (update_cache (initCache (α := ℕ)) 42 0) 700
        CACHE_TIMEOUT_default).1 = none :=
  ⟨of_decide_eq_true (by with_unfolding_all rfl),
   of_decide_eq_true (by with_unfolding_all rfl)⟩

/-- C2 (amended): the service keeps a single keyless cache slot; after
`_update_cache(d)` at time `t0`, `get_cached_data` at time `t` returns `d`
exactly when strictly less than the configured timeout has elapsed and a
miss otherwise, never mutating the state (so a miss triggers no fetch
here); the `CACHE_TIMEOUT` default is 600 seconds, not 3600. -/
theorem cache_roundtrip (α : Type) (s : CacheState α) (d : α) (t0 t timeout : ℚ) :
    get_cached_data (update_cache s d t0) t timeout =
      ((if t - t0 < timeout then some d else none), update_cache s d t0) ∧
    CACHE_TIMEOUT_default = 600 := by
  refine ⟨?_, rfl⟩
  unfold get_cached_data is_cache_valid update_cache
  by_cases h : t - t0 < timeout <;> simp [h]

/-- C3 counterexample: a `get` on an expired entry (stored at `0`, read at
exactly the timeout) returns a miss but leaves the entry in the cache —
the claimed lazy removal does not exist. -/
theorem cache_expired_get_does_not_delete :
    (get_cached_data (update_cache (initCache (α := ℕ)) 7 0) 600 600).1 = none ∧
    (get_cached_data (update_cache (initCache (α := ℕ)) 7 0) 600 600).2.cachedData
      = some 7 :=
  ⟨of_decide_eq_true (by with_unfolding_all rfl),
   of_decide_eq_true (by with_unfolding_all rfl)⟩

/-- C3 (amended): a cached value is returned only while unexpired
(`now - fetched_at < timeout`), and expired entries never influence the
output of `get_cached_data`; but `get_cached_data` never mutates the cache
— entries are never deleted, only overwritten by later
`_update_cache` calls. -/
theorem cache_entry_returned_only_unexpired (α : Type) (s : CacheState α)
    (now timeout : ℚ) :
    (∀ d, (get_cached_data s now timeout).1 = some d →
      s.cachedData = some d ∧ ∃ t, s.cacheTimestamp = some t ∧ now - t < timeout) ∧
    (get_cached_data s now timeout).2 = s := by
  refine ⟨?_, rfl⟩
  intro d h
  unfold get_cached_data is_cache_valid at h
  rcases hts : s.cacheTimestamp with _ | t
  · rw [hts] at h; simp at h
  · rw [hts] at h
    by_cases hlt : now - t < timeout
    · simp only [hlt, decide_True, if_true] at h
      exact ⟨h, t, rfl, hlt⟩
    · simp only [hlt, decide_False, if_false] at h
      exact absurd h (by simp)

/-- Witness for C3 (amended) at a concrete valid entry. -/
theorem cache_entry_returned_only_unexpired_witness :
    ((⟨some 5, some 0⟩ : CacheState ℕ).cachedData = some 5 ∧
      ∃ t, (⟨some 5, some 0⟩ : CacheState ℕ).cacheTimestamp = some t ∧
        (10 : ℚ) - t < 600) ∧
    (get_cached_data (⟨some 5, some 0⟩ : CacheState ℕ) 10 600).2 = ⟨some 5, some 0⟩ :=
  ⟨(cache_entry_returned_only_unexpired ℕ ⟨some 5, some 0⟩ 10 600).1 5
      (of_decide_eq_true (by with_unfolding_all rfl)),
   (cache_entry_returned_only_unexpired ℕ ⟨some 5, some 0⟩ 10 600).2⟩

/-- C4: providers 1..k-1 failing and provider k succeeding makes the
fallback chain attempt exactly providers 1..k in configured order —
nothing after k, each at most once (spec-modelled: the chain is absent
from `src/`). -/
theorem fallback_chain_order (fetch : MapProvider → FetchOutcome)
    (ps : List MapProvider) (k : ℕ) (t : ℕ) (hk : k < ps.length)
    (hfail : ∀ i, (hi : i < k) → fetch (ps.get ⟨i, hi.trans hk⟩) = .failure)
    (hsucc : fetch (ps.get ⟨k, hk⟩) = .success t) :
    fetchWithFallback fetch ps = (ps.take (k + 1), some t) ∧
    (ps.Nodup → (fetchWithFallback fetch ps).1.Nodup) := by
  suffices h : ∀ (l : List MapProvider) (k : ℕ) (hk : k < l.length)
      (_ : ∀ i, (hi : i < k) → fetch (l.get ⟨i, hi.trans hk⟩) = .failure)
      (_ : fetch (l.get ⟨k, hk⟩) = .success t),
      fetchWithFallback fetch l = (l.take (k + 1), some t) by
    refine ⟨h ps k hk hfail hsucc, fun hnd => ?_⟩
    rw [h ps k hk hfail hsucc]
    exact hnd.sublist (List.take_sublist _ _)
  intro l
  induction l with
  | nil => intro k hk _ _; exact absurd hk (by simp)
  | cons p rest ih =>
    intro k hk hfail2 hsucc2
    cases k with
    | zero =>
        have hp : fetch p = .success t := hsucc2
        unfold fetchWithFallback
        rw [hp]
        simp
    | succ k =>
        have hp : fetch p = .failure := hfail2 0 (Nat.succ_pos k)
        have hk2 : k < rest.length := Nat.lt_of_succ_lt_succ hk
        have tail : fetchWithFallback fetch rest = (rest.take (k + 1), some t) := by
          refine ih k hk2 (fun i hi => hfail2 (i + 1) (Nat.succ_lt_succ hi)) hsucc2
        unfold fetchWithFallback
        rw [hp, tail]
        simp [List.take_succ_cons]

/-- A concrete three-provider configuration for exercising the chain. -/
def demoProviders : List MapProvider :=
  [⟨"osm", "https://tile.openstreetmap.org/z/x/y.png"⟩,
   ⟨"carto", "https://basemaps.cartocdn.com/z/x/y.png"⟩,
   ⟨"stamen", "https://tiles.stadiamaps.com/z/x/y.png"⟩]

/-- A fetch behaviour where only the second provider succeeds. -/
def demoFetch (p : MapProvider) : FetchOutcome :=
  if p.name = "carto" then .success 9 else .failure

/-- Witness for C4 at the concrete three-provider configuration with
provider 1 failing and provider 2 succeeding. -/
theorem fallback_chain_order_witness :
    fetchWithFallback demoFetch demoProviders = (demoProviders.take 2, some 9) ∧
    (demoProviders.Nodup → (fetchWithFallback demoFetch demoProviders).1.Nodup) :=
  fallback_chain_order demoFetch demoProviders 1 9
    (of_decide_eq_true (by with_unfolding_all rfl))
    (fun i hi => by
      have h0 : i = 0 := by omega
      subst h0
      exact of_decide_eq_true (by with_unfolding_all rfl))
    (of_decide_eq_true (by with_unfolding_all rfl))

/-- C6: latitudes at or beyond ±85.05113° make the projection fail with
`OutOfRange` — no tile coordinate is produced — and the render pipeline
terminates in the fallback render rather than crashing (spec-modelled: the
projection and pipeline are absent from `src/`). -/
theorem projection_out_of_range (lat lon : ℚ) (zoom : ℕ)
    (fetch : MapProvider → FetchOutcome) (providers : List MapProvider)
    (h : MAX_LATITUDE ≤ |lat|) :
    project lat lon zoom = .outOfRange ∧
    renderPipeline lat lon zoom fetch providers = .fallbackRender := by
  have hp : project lat lon zoom = .outOfRange := by
    unfold project
    rw [if_pos h]
  refine ⟨hp, ?_⟩
  unfold renderPipeline
  rw [hp]

/-- Witness for C6 at latitude 86°. -/
theorem projection_out_of_range_witness :
    MAX_LATITUDE ≤ |(86 : ℚ)| ∧
    (project 86 0 8 = .outOfRange ∧
     renderPipeline 86 0 8 (fun _ => .failure) [] = .fallbackRender) :=
  ⟨of_decide_eq_true (by with_unfolding_all rfl),
   projection_out_of_range 86 0 8 (fun _ => .failure) []
     (of_decide_eq_true (by with_unfolding_all rfl))⟩

/-- The view box of `_draw_simple_map` is centered on the ship, so the
marker pixel is always the exact center of the map frame: with the default
800×480 display the marker is `(200, 210)`, for every position. -/
theorem marker_pixel_center (lat lon : ℚ) :
    markerPixel defaultGeometry lat lon = (200, 210) := by
  have hw : (defaultGeometry.usable_map_width : ℚ) = 360 := by
    norm_num [DisplayGeometry.usable_map_width, DisplayGeometry.map_width,
      defaultGeometry, border_margin, Int.fdiv]
  have hh : (defaultGeometry.usable_map_height : ℚ) = 380 := by
    norm_num [DisplayGeometry.usable_map_height, DisplayGeometry.map_height,
      defaultGeometry, border_margin]
  have hx : mapPixelX defaultGeometry lon lon = 200 := by
    unfold mapPixelX
    rw [hw]
    show (border_margin : ℚ) + (lon - (lon - 3)) / (lon + 3 - (lon - 3)) * 360 = 200
    have h1 : lon - (lon - 3) = (3 : ℚ) := by ring
    have h2 : lon + 3 - (lon - 3) = (6 : ℚ) := by ring
    rw [h1, h2]
    norm_num [border_margin]
  have hy : mapPixelY defaultGeometry lat lat = 210 := by
    unfold mapPixelY
    rw [hh]
    show (border_margin : ℚ) + (lat + 2 - lat) / (lat + 2 - (lat - 2)) * 380 = 210
    have h1 : lat + 2 - lat = (2 : ℚ) := by ring
    have h2 : lat + 2 - (lat - 2) = (4 : ℚ) := by ring
    rw [h1, h2]
    norm_num [border_margin]
  unfold markerPixel
  rw [hx, hy]
  norm_num [pyInt]

/-- C8: for every in-range ship position the marker pixel computed by
`_draw_simple_map` lies inside `[0, map_width) × [0, map_height)` of the
drawn map frame (indeed it is always the frame's center, because the
marker and the view box come from the same position-centered mapping). -/
theorem marker_within_map_bounds (lat lon : ℚ)
    (_h : validate_coordinates lat lon = true) :
    0 ≤ (markerPixel defaultGeometry lat lon).1 ∧
    (markerPixel defaultGeometry lat lon).1 < defaultGeometry.map_width ∧
    0 ≤ (markerPixel defaultGeometry lat lon).2 ∧
    (markerPixel defaultGeometry lat lon).2 < defaultGeometry.map_height := by
  rw [marker_pixel_center]
  refine ⟨by norm_num, ?_, by norm_num, ?_⟩
  · show (200 : ℤ) < defaultGeometry.map_width
    norm_num [DisplayGeometry.map_width, defaultGeometry, Int.fdiv]
  · show (210 : ℤ) < defaultGeometry.map_height
    norm_num [DisplayGeometry.map_height, defaultGeometry]

/-- Witness for C8 at the repository's test position (62.8568, 58.7332). -/
theorem marker_within_map_bounds_witness :
    validate_coordinates (628568 / 10000) (587332 / 10000) = true ∧
    (0 ≤ (markerPixel defaultGeometry (628568 / 10000) (587332 / 10000)).1 ∧
     (markerPixel defaultGeometry (628568 / 10000) (587332 / 10000)).1
        < defaultGeometry.map_width ∧
     0 ≤ (markerPixel defaultGeometry (628568 / 10000) (587332 / 10000)).2 ∧
     (markerPixel defaultGeometry (628568 / 10000) (587332 / 10000)).2
        < defaultGeometry.map_height) :=
  ⟨of_decide_eq_true (by with_unfolding_all rfl),
   marker_within_map_bounds (628568 / 10000) (587332 / 10000)
     (of_decide_eq_true (by with_unfolding_all rfl))⟩

/-- C9: for `ship_data` that is `None`, empty, or not marked `connected`,
`create_display` takes the error branch and returns an image (never `None`,
no exception, no other vessel field required), containing the error
message line when a non-empty `error` value is present and the
last-update line when a non-empty `timestamp` value is present. -/
theorem error_state_display (g : DisplayGeometry) (sd : Option ShipData)
    (h : sd = none ∨ ∃ d, sd = some d ∧
      (d.isEmpty = true ∨ d.connection_status ≠ some "connected")) :
    create_display g sd = some ⟨g.width, g.height, draw_error_state g sd⟩ ∧
    (∀ d e, sd = some d → d.error = some e → e ≠ "" →
      DrawOp.text 40 100 ("Error: " ++ e) 0 ∈ draw_error_state g sd) ∧
    (∀ d ts, sd = some d → d.timestamp = some ts → ts ≠ "" →
      DrawOp.text 40 140 ("Last successful update: " ++ format_timestamp ts) 0
        ∈ draw_error_state g sd) := by
  have hb : errorBranch sd = true := by
    rcases h with h | ⟨d, rfl, hd | hd⟩
    · rw [h]; rfl
    · simp [errorBranch, hd]
    · simp [errorBranch, hd]
  refine ⟨?_, ?_, ?_⟩
  · unfold create_display
    rw [hb]
    simp
  · rintro d e rfl he hne
    simp only [draw_error_state, Option.bind, he]
    rw [if_neg hne]
    cases hts2 : d.timestamp with
    | none => simp
    | some ts => by_cases h3 : ts = "" <;> simp [h3]
  · rintro d ts rfl hts hne
    simp only [draw_error_state, Option.bind, hts]
    rw [if_neg hne]
    simp

/-- A concrete disconnected input for the C9 witness. -/
def disconnectedData : ShipData :=
  { connection_status := some "disconnected",
    error := some "No connection to vessel tracking service",
    timestamp := some "2024-12-28 15:30:00 UTC" }

/-- Witness for C9 at a concrete disconnected input. -/
theorem error_state_display_witness :
    create_display defaultGeometry (some disconnectedData) =
      some ⟨defaultGeometry.width, defaultGeometry.height,
        draw_error_state defaultGeometry (some disconnectedData)⟩ ∧
    DrawOp.text 40 100 ("Error: " ++ "No connection to vessel tracking service") 0
      ∈ draw_error_state defaultGeometry (some disconnectedData) ∧
    DrawOp.text 40 140
        ("Last successful update: " ++ format_timestamp "2024-12-28 15:30:00 UTC") 0
      ∈ draw_error_state defaultGeometry (some disconnectedData) := by
  have h := error_state_display defaultGeometry (some disconnectedData)
    (Or.inr ⟨disconnectedData, rfl,
      Or.inr (of_decide_eq_true (by with_unfolding_all rfl))⟩)
  exact ⟨h.1, h.2.1 disconnectedData _ rfl rfl (by decide),
    h.2.2 disconnectedData _ rfl rfl (by decide)⟩

/-- The connected branch of `create_display` completes without an
exception exactly when `lat`/`lon` are present and parse as floats and the
keys the info panel and status bar read are present. -/
def connectedInputOk (d : ShipData) : Bool :=
  (d.lat.bind pyFloat).isSome && (d.lon.bind pyFloat).isSome &&
  d.ship_name.isSome && d.mmsi.isSome && d.speed.isSome && d.course.isSome &&
  d.timestamp.isSome

/-- The info panel draws exactly when its six required keys are present. -/
theorem draw_ship_info_isSome (g : DisplayGeometry) (d : ShipData) :
    (draw_ship_info g d).isSome =
      (d.ship_name.isSome && d.mmsi.isSome && d.speed.isSome && d.course.isSome &&
       d.lat.isSome && d.lon.isSome) := by
  unfold draw_ship_info
  cases d.ship_name <;> cases d.mmsi <;> cases d.speed <;> cases d.course <;>
    cases d.lat <;> cases d.lon <;> rfl

/-- The status bar draws exactly when `timestamp` is present. -/
theorem draw_status_bar_isSome (g : DisplayGeometry) (d : ShipData) :
    (draw_status_bar g d).isSome = d.timestamp.isSome := by
  unfold draw_status_bar
  cases d.timestamp <;> rfl

/-- C1 (amended): `create_display` never raises (it is a total function of
its input), and it returns an image exactly when either the error branch is
taken or the connected branch finds parsable `lat`/`lon` and every key the
info panel and status bar require; when an internal exception occurs in the
connected branch it returns `None` instead of an image, contrary to the
claim that every input yields image bytes. -/
theorem create_display_isSome_iff (g : DisplayGeometry) (sd : Option ShipData) :
    (create_display g sd).isSome = (errorBranch sd || sd.elim false connectedInputOk) := by
  cases sd with
  | none => rfl
  | some d =>
    by_cases hb : errorBranch (some d) = true
    · simp [create_display, hb]
    · have hb2 : errorBranch (some d) = false := by simpa using hb
      rw [create_display, if_neg hb, hb2, Bool.false_or]
      show (do
        let laS ← d.lat
        let la ← pyFloat laS
        let loS ← d.lon
        let lo ← pyFloat loS
        let infoOps ← draw_ship_info g d
        let statusOps ← draw_status_bar g d
        pure (⟨g.width, g.height, draw_simple_map g la lo ++ infoOps ++ statusOps⟩
          : DisplayImage)).isSome = (some d).elim false connectedInputOk
      cases hla : d.lat with
      | none => simp [connectedInputOk, hla]
      | some laS =>
        cases hpla : pyFloat laS with
        | none => simp [connectedInputOk, hla, hpla]
        | some la =>
          cases hlo : d.lon with
          | none => simp [connectedInputOk, hla, hlo]
          | some loS =>
            cases hplo : pyFloat loS with
            | none => simp [connectedInputOk, hla, hlo, hpla, hplo]
            | some lo =>
              have h1 := draw_ship_info_isSome g d
              have h2 := draw_status_bar_isSome g d
              rw [hla, hlo] at h1
              cases hinfo : draw_ship_info g d with
              | none =>
                rw [hinfo] at h1
                simp [connectedInputOk, hla, hlo, hpla, hplo, hinfo]
                intro hsn hmm2 hsp hco
                rw [hsn, hmm2, hsp, hco] at h1
                simp at h1
              | some infoOps =>
                cases hstat : draw_status_bar g d with
                | none =>
                  rw [hstat] at h2
                  simp [connectedInputOk, hla, hlo, hpla, hplo, hinfo, hstat]
                  intro _ _ _ _
                  cases hts : d.timestamp with
                  | none => rfl
                  | some x => rw [hts] at h2; simp at h2
                | some statusOps =>
                  rw [hinfo] at h1
                  rw [hstat] at h2
                  simp [connectedInputOk, hla, hlo, hpla, hplo, hinfo, hstat]
                  have h1s := h1.symm
                  have h2s := h2.symm
                  simp only [Option.isSome_some, Bool.and_true, Bool.true_and,
                    Bool.and_eq_true] at h1s h2s
                  exact ⟨h1s, h2s⟩

/-- A connected input whose `lat` does not parse as a float. -/
def badConnectedData : ShipData :=
  { connection_status := some "connected",
    lat := some "abc",
    lon := some "58.7332",
    ship_name := some "SAPPHIRE PRINCESS",
    mmsi := some "235103357",
    speed := some "13.3",
    course := some "226.8",
    timestamp := some "2024-12-28 15:30:00 UTC" }

/-- C1 counterexample: a connected input with an unparsable latitude makes
`create_display` return `None` — no image bytes at all — refuting the
claim that the display generation returns an image on every input. -/
theorem create_display_none_on_unparsable_lat :
    create_display defaultGeometry (some badConnectedData) = none :=
  of_decide_eq_true (by with_unfolding_all rfl)

/-- The one-decimal south-latitude annotation is always drawn on the map. -/
theorem coord_text_mem (g : DisplayGeometry) (lat lon : ℚ) :
    DrawOp.text (border_margin + 5) (border_margin - 15) (fmtFixed 1 lat ++ "°S") 0
      ∈ draw_simple_map g lat lon := by
  unfold draw_simple_map
  simp [List.mem_append]

/-- C5 counterexample: at the repository's test position (62.8568,
58.7332), the coordinate annotation drawn on the map is "62.9°S" — one
decimal place — and no text on the drawn map contains "62.8568", refuting
the claimed four-decimal coordinates in the placeholder image. -/
theorem map_coords_one_decimal_not_four :
    DrawOp.text (border_margin + 5) (border_margin - 15) "62.9°S" 0
      ∈ draw_simple_map defaultGeometry (628568 / 10000) (587332 / 10000) ∧
    ((draw_simple_map defaultGeometry (628568 / 10000) (587332 / 10000)).filterMap
        DrawOp.textOf).all (fun s => !strHasSub "62.8568" s) = true :=
  ⟨of_decide_eq_true (by with_unfolding_all rfl),
   of_decide_eq_true (by with_unfolding_all rfl)⟩

/-- C5 (amended): every image `create_display` returns has exactly the
configured display width and height, and the map annotation formats the
coordinates to one decimal place (with fixed `°S`/`°W` suffixes), not
four; four-decimal coordinates appear only in the service's `lat`/`lon`
strings shown in the info panel. -/
theorem display_dims_and_one_decimal_coords (g : DisplayGeometry)
    (sd : Option ShipData) (img : DisplayImage)
    (h : create_display g sd = some img) :
    img.width = g.width ∧ img.height = g.height ∧
    ∀ lat lon : ℚ,
      DrawOp.text (border_margin + 5) (border_margin - 15) (fmtFixed 1 lat ++ "°S") 0
        ∈ draw_simple_map g lat lon := by
  refine ?_
  have hdims : img.width = g.width ∧ img.height = g.height := by
    unfold create_display at h
    by_cases hb : errorBranch sd = true
    · rw [if_pos hb] at h
      cases h
      exact ⟨rfl, rfl⟩
    · rw [if_neg hb] at h
      cases sd with
      | none => exact absurd h (by simp)
      | some d =>
        dsimp only at h
        cases hla : d.lat with
        | none => rw [hla] at h; exact absurd h (by simp)
        | some laS =>
          rw [hla] at h
          simp only [Option.bind_eq_bind, Option.some_bind] at h
          cases hpla : pyFloat laS with
          | none => rw [hpla] at h; exact absurd h (by simp)
          | some la =>
            rw [hpla] at h
            simp only [Option.bind_eq_bind, Option.some_bind] at h
            cases hlo : d.lon with
            | none => rw [hlo] at h; exact absurd h (by simp)
            | some loS =>
              rw [hlo] at h
              simp only [Option.bind_eq_bind, Option.some_bind] at h
              cases hplo : pyFloat loS with
              | none => rw [hplo] at h; exact absurd h (by simp)
              | some lo =>
                rw [hplo] at h
                simp only [Option.bind_eq_bind, Option.some_bind] at h
                cases hinfo : draw_ship_info g d with
                | none => rw [hinfo] at h; exact absurd h (by simp)
                | some infoOps =>
                  rw [hinfo] at h
                  simp only [Option.bind_eq_bind, Option.some_bind] at h
                  cases hstat : draw_status_bar g d with
                  | none => rw [hstat] at h; exact absurd h (by simp)
                  | some statusOps =>
                    rw [hstat] at h
                    simp only [Option.bind_eq_bind, Option.some_bind, Option.pure_def, Option.some.injEq] at h
                    rw [← h]
                    exact ⟨rfl, rfl⟩
  exact ⟨hdims.1, hdims.2, fun lat lon => coord_text_mem g lat lon⟩

/-- Witness for C5 (amended) at a concrete input (error-state image) and
the test latitude 54.9. -/
theorem display_dims_witness :
    (⟨defaultGeometry.width, defaultGeometry.height,
        draw_error_state defaultGeometry none⟩ : DisplayImage).width
        = defaultGeometry.width ∧
    (⟨defaultGeometry.width, defaultGeometry.height,
        draw_error_state defaultGeometry none⟩ : DisplayImage).height
        = defaultGeometry.height ∧
    DrawOp.text (border_margin + 5) (border_margin - 15)
        (fmtFixed 1 (549 / 10) ++ "°S") 0
      ∈ draw_simple_map defaultGeometry (549 / 10) (587332 / 10000) := by
  have h := display_dims_and_one_decimal_coords defaultGeometry none
    ⟨defaultGeometry.width, defaultGeometry.height,
      draw_error_state defaultGeometry none⟩ rfl
  exact ⟨h.1, h.2.1, h.2.2 (549 / 10) (587332 / 10000)⟩

/-- The decimal expansion always starts with a digit character. -/
theorem natReprGo_head (f n : ℕ) :
    ∃ d l, natReprGo (f + 1) n = Nat.digitChar d :: l ∧ d < 10 := by
  induction f generalizing n with
  | zero =>
    by_cases h : n < 10
    · exact ⟨n, [], by simp [natReprGo, h], h⟩
    · refine ⟨n % 10, [], ?_, Nat.mod_lt _ (by norm_num)⟩
      simp [natReprGo, h]
  | succ f ih =>
    by_cases h : n < 10
    · exact ⟨n, [], by simp [natReprGo, h], h⟩
    · obtain ⟨d, l, hl, hd⟩ := ih (n / 10)
      refine ⟨d, l ++ [Nat.digitChar (n % 10)], ?_, hd⟩
      rw [show natReprGo (f + 1 + 1) n
            = natReprGo (f + 1) (n / 10) ++ [Nat.digitChar (n % 10)] by
          simp [natReprGo, h], hl]
      rfl

/-- Formatting the absolute value of a rational never yields a sign
character: the output starts with a digit. -/
theorem fmtFixedChars_abs_head (prec : ℕ) (q : ℚ) :
    (fmtFixedChars prec |q|).head? ≠ some '-' := by
  have hd10 : ∀ d, d < 10 → Nat.digitChar d ≠ '-' := by decide
  have habs : ¬(|q| < 0) := not_lt.2 (abs_nonneg q)
  have key : ∀ (m : ℕ) (rest : List Char),
      ((natReprChars m ++ rest).head? ≠ some '-') ∧
      ((natReprChars m).head? ≠ some '-') := by
    intro m rest
    obtain ⟨d, l, hl, hdlt⟩ := natReprGo_head m m
    unfold natReprChars
    rw [hl]
    exact ⟨by simp [hd10 d hdlt], by simp [hd10 d hdlt]⟩
  simp only [fmtFixedChars, if_neg habs, List.nil_append]
  by_cases hp : prec = 0
  · rw [if_pos hp]; exact (key _ []).2
  · rw [if_neg hp]; exact (key _ _).1

/-- C10: `get_vessel_data` builds `lat`/`lon` from the absolute values of
the reported coordinates to four decimal places — the hemisphere sign is
discarded, the strings never start with a minus sign — and the display
layer appends the `°S`/`°W` suffixes unconditionally, whatever the
original sign was. -/
theorem vessel_coords_abs_and_fixed_suffix (la lo : ℚ) :
    vessel_lat_field la = vessel_lat_field (-la) ∧
    vessel_lon_field lo = vessel_lon_field (-lo) ∧
    vessel_lat_field la = fmtFixed 4 |la| ∧
    vessel_lon_field lo = fmtFixed 4 |lo| ∧
    (vessel_lat_field la).toList.head? ≠ some '-' ∧
    (vessel_lon_field lo).toList.head? ≠ some '-' ∧
    (∀ (g : DisplayGeometry) (d : ShipData) laS loS ops,
      d.lat = some laS → d.lon = some loS → draw_ship_info g d = some ops →
      DrawOp.text (Int.fdiv g.width 2 + 20) 240
        ("Position: " ++ laS ++ "°S, " ++ loS ++ "°W") 0 ∈ ops) := by
  refine ⟨?_, ?_, rfl, rfl, fmtFixedChars_abs_head 4 la, fmtFixedChars_abs_head 4 lo, ?_⟩
  · unfold vessel_lat_field; rw [abs_neg]
  · unfold vessel_lon_field; rw [abs_neg]
  · intro g d laS loS ops hla hlo hops
    unfold draw_ship_info at hops
    rw [hla, hlo] at hops
    cases hsn : d.ship_name with
    | none => rw [hsn] at hops; exact absurd hops (by simp)
    | some sn =>
      rw [hsn] at hops
      simp only [Option.bind_eq_bind, Option.some_bind] at hops
      cases hmm : d.mmsi with
      | none => rw [hmm] at hops; exact absurd hops (by simp)
      | some mm =>
        rw [hmm] at hops
        simp only [Option.bind_eq_bind, Option.some_bind] at hops
        cases hsp : d.speed with
        | none => rw [hsp] at hops; exact absurd hops (by simp)
        | some sp =>
          rw [hsp] at hops
          simp only [Option.bind_eq_bind, Option.some_bind] at hops
          cases hco : d.course with
          | none => rw [hco] at hops; exact absurd hops (by simp)
          | some co =>
            rw [hco] at hops
            simp only [Option.bind_eq_bind, Option.some_bind, Option.pure_def,
              Option.some.injEq] at hops
            rw [← hops]
            simp

/-- The mock vessel record of `tests/mock_vessel_service.py`, as the
display layer consumes it. -/
def mockShipData : ShipData :=
  { connection_status := some "connected",
    lat := some "62.8568",
    lon := some "58.7332",
    ship_name := some "SAPPHIRE PRINCESS",
    mmsi := some "235103357",
    destination := some "ADMIRALTY BAY",
    speed := some "13.3",
    course := some "226.8",
    timestamp := some "2024-12-28 15:30:00 UTC" }

set_option maxRecDepth 4000 in
/-- Witness for C10 on the mock vessel data and a southern latitude. -/
theorem vessel_coords_abs_witness :
    vessel_lat_field (628568 / 10000) = vessel_lat_field (-(628568 / 10000)) ∧
    DrawOp.text (Int.fdiv defaultGeometry.width 2 + 20) 240
        ("Position: " ++ "62.8568" ++ "°S, " ++ "58.7332" ++ "°W") 0
      ∈ (draw_ship_info defaultGeometry mockShipData).getD [] := by
  have h := vessel_coords_abs_and_fixed_suffix (628568 / 10000) (587332 / 10000)
  refine ⟨h.1, ?_⟩
  have hops : draw_ship_info defaultGeometry mockShipData =
      some ((draw_ship_info defaultGeometry mockShipData).getD []) :=
    of_decide_eq_true (by with_unfolding_all rfl)
  exact h.2.2.2.2.2.2 defaultGeometry mockShipData "62.8568" "58.7332" _ rfl rfl hops

/-- Derivative of the Mercator ordinate seen as `arsinh (tan t)`:
`sec t` wherever the cosine is positive. -/
theorem hasDerivAt_arsinhTan {x : ℝ} (hx : 0 < Real.cos x) :
    HasDerivAt (fun t => Real.arsinh (Real.tan t)) (1 / Real.cos x) x := by
  have h3 : HasDerivAt (fun t => Real.arsinh (Real.tan t))
      (Real.cos x * (1 / Real.cos x ^ 2)) x := by
    have h := (Real.hasDerivAt_arsinh (Real.tan x)).comp x
      (Real.hasDerivAt_tan (ne_of_gt hx))
    rw [Real.inv_sqrt_one_add_tan_sq hx] at h
    simpa [Function.comp] using h
  have he : Real.cos x * (1 / Real.cos x ^ 2) = 1 / Real.cos x := by
    field_simp
    ring
  rwa [he] at h3

/-- On the domain where the cosine is positive, `ln(tan + sec)` is
`arsinh (tan x)`. -/
theorem mercY_eq_arsinh_tan {x : ℝ} (hx : 0 < Real.cos x) :
    mercY x = Real.arsinh (Real.tan x) := by
  have hs : Real.sqrt (1 + Real.tan x ^ 2) = (Real.cos x)⁻¹ := by
    rw [← Real.inv_sqrt_one_add_tan_sq hx, inv_inv]
  unfold mercY Real.arsinh
  rw [hs, one_div]

/-- The Mercator ordinate is strictly convex on latitude intervals inside
the first quadrant (its derivative `sec` is strictly increasing there). -/
theorem arsinhTan_strictConvexOn {a b : ℝ} (h0 : 0 < a) (hb : b < Real.pi / 2) :
    StrictConvexOn ℝ (Set.Icc a b) (fun t => Real.arsinh (Real.tan t)) := by
  have hcos : ∀ x ∈ Set.Icc a b, 0 < Real.cos x := by
    intro x hx
    apply Real.cos_pos_of_mem_Ioo
    constructor
    · have := Real.pi_pos
      have := hx.1
      linarith
    · have := hx.2
      linarith
  apply StrictMonoOn.strictConvexOn_of_deriv (convex_Icc a b)
  · intro x hx
    exact (hasDerivAt_arsinhTan (hcos x hx)).continuousAt.continuousWithinAt
  · rw [interior_Icc]
    intro x hx y hy hxy
    have hcx : 0 < Real.cos x := hcos x ⟨le_of_lt hx.1, le_of_lt hx.2⟩
    have hcy : 0 < Real.cos y := hcos y ⟨le_of_lt hy.1, le_of_lt hy.2⟩
    rw [(hasDerivAt_arsinhTan hcx).deriv, (hasDerivAt_arsinhTan hcy).deriv]
    have hlt : Real.cos y < Real.cos x := by
      apply Real.strictAntiOn_cos
      · exact ⟨by linarith [hx.1], by linarith [Real.pi_pos, hx.2]⟩
      · exact ⟨by linarith [hx.1, hy.1], by linarith [Real.pi_pos, hy.2]⟩
      · exact hxy
    exact one_div_lt_one_div_of_lt hcy hlt

/-- Strict convexity at the midpoint, and strict monotonicity, of the
Mercator ordinate on an interval inside the first quadrant. -/
theorem mercY_midpoint_lt {a b : ℝ} (h0 : 0 < a) (hab : a < b) (hb : b < Real.pi / 2) :
    mercY ((a + b) / 2) < (mercY a + mercY b) / 2 ∧ mercY a < mercY b := by
  have hπ := Real.pi_pos
  have hca : 0 < Real.cos a :=
    Real.cos_pos_of_mem_Ioo ⟨by linarith, by linarith⟩
  have hcb : 0 < Real.cos b :=
    Real.cos_pos_of_mem_Ioo ⟨by linarith, by linarith⟩
  have hcm : 0 < Real.cos ((a + b) / 2) :=
    Real.cos_pos_of_mem_Ioo ⟨by linarith, by linarith⟩
  have hconv := arsinhTan_strictConvexOn h0 hb
  have key := hconv.2 (x := a) ⟨le_refl a, le_of_lt hab⟩ (y := b)
    ⟨le_of_lt hab, le_refl b⟩ (ne_of_lt hab)
    (by norm_num : (0:ℝ) < 1/2) (by norm_num : (0:ℝ) < 1/2) (by norm_num)
  simp only [smul_eq_mul] at key
  have hmid : (1:ℝ)/2 * a + 1/2 * b = (a + b) / 2 := by ring
  rw [hmid] at key
  constructor
  · rw [mercY_eq_arsinh_tan hca, mercY_eq_arsinh_tan hcb, mercY_eq_arsinh_tan hcm]
    linarith [key]
  · rw [mercY_eq_arsinh_tan hca, mercY_eq_arsinh_tan hcb]
    apply Real.arsinh_strictMono
    apply Real.strictMonoOn_tan
    · exact ⟨by linarith, by linarith⟩
    · exact ⟨by linarith, by linarith⟩
    · exact hab

/-- C7 counterexample: the rendering of `_draw_simple_map` places the
window midpoint latitude (ship at 54.9°, window 52.9°..56.9°) exactly at
the vertical pixel center (210), but a Web-Mercator-consistent mapping of
the same window does not — the Mercator ordinate is strictly convex, so
its midpoint fraction exceeds 1/2.  The position-to-pixel mapping used by
the rendering therefore does not agree with the Web Mercator projection. -/
theorem rendering_disagrees_with_mercator :
    mapPixelY defaultGeometry (549 / 10) (549 / 10) = 210 ∧
    mercPixelY defaultGeometry (529 / 10) (569 / 10) (549 / 10) ≠ 210 := by
  constructor
  · have hh : (defaultGeometry.usable_map_height : ℚ) = 380 := by
      norm_num [DisplayGeometry.usable_map_height, DisplayGeometry.map_height,
        defaultGeometry, border_margin]
    unfold mapPixelY
    rw [hh]
    show (border_margin : ℚ) + (549 / 10 + 2 - 549 / 10) / (549 / 10 + 2 - (549 / 10 - 2)) * 380
      = 210
    norm_num [border_margin]
  · have hπ := Real.pi_pos
    have h0a : 0 < deg2rad (529 / 10) := by
      unfold deg2rad
      have : ((529 / 10 : ℚ) : ℝ) = 529 / 10 := by push_cast; ring
      rw [this]
      positivity
    have hab : deg2rad (529 / 10) < deg2rad (569 / 10) := by
      unfold deg2rad
      have h1 : ((529 / 10 : ℚ) : ℝ) = 529 / 10 := by push_cast; ring
      have h2 : ((569 / 10 : ℚ) : ℝ) = 569 / 10 := by push_cast; ring
      rw [h1, h2]
      nlinarith
    have hbp : deg2rad (569 / 10) < Real.pi / 2 := by
      unfold deg2rad
      have h2 : ((569 / 10 : ℚ) : ℝ) = 569 / 10 := by push_cast; ring
      rw [h2]
      nlinarith
    have hm : deg2rad (549 / 10) = (deg2rad (529 / 10) + deg2rad (569 / 10)) / 2 := by
      unfold deg2rad
      push_cast
      ring
    obtain ⟨h1, h2⟩ := mercY_midpoint_lt h0a hab hbp
    rw [← hm] at h1
    unfold mercPixelY
    have hb20 : (border_margin : ℝ) = 20 := by norm_num [border_margin]
    have hh380 : ((defaultGeometry.usable_map_height : ℤ) : ℝ) = 380 := by
      norm_num [DisplayGeometry.usable_map_height, DisplayGeometry.map_height,
        defaultGeometry, border_margin]
    rw [hb20, hh380]
    set A := mercY (deg2rad (529 / 10)) with hA
    set B := mercY (deg2rad (569 / 10)) with hB
    set M := mercY (deg2rad (549 / 10)) with hM
    have hden : 0 < B - A := by linarith
    have hfrac : 1 / 2 < (B - M) / (B - A) := by
      rw [lt_div_iff₀ hden]
      linarith
    have hgt : (210 : ℝ) < 20 + (B - M) / (B - A) * 380 := by nlinarith
    exact ne_of_gt hgt

/-- C7 (amended): the tile projection follows the standard Web Mercator
formula (spec-modelled: it is absent from `src/`), but the
position-to-pixel mapping the rendering in `src/` uses is linear
(midpoint-affine) in latitude over its 4°-high window — which, by the
counterexample, does not agree with the Mercator projection. -/
theorem projection_formula_and_linear_rendering (lat lon : ℚ) (zoom : ℕ)
    (h : |lat| < MAX_LATITUDE) :
    project lat lon zoom = .tile zoom (tile_x lon zoom) (tile_y lat zoom) ∧
    ∀ (g : DisplayGeometry) (s p q : ℚ),
      mapPixelY g s ((p + q) / 2) = (mapPixelY g s p + mapPixelY g s q) / 2 := by
  constructor
  · unfold project
    rw [if_neg (not_le.2 h)]
  · intro g s p q
    unfold mapPixelY
    show (border_margin : ℚ) + (s + 2 - (p + q) / 2) / (s + 2 - (s - 2))
          * (g.usable_map_height : ℚ)
        = ((border_margin : ℚ) + (s + 2 - p) / (s + 2 - (s - 2))
            * (g.usable_map_height : ℚ)
          + ((border_margin : ℚ) + (s + 2 - q) / (s + 2 - (s - 2))
            * (g.usable_map_height : ℚ))) / 2
    have h4 : s + 2 - (s - 2) = (4 : ℚ) := by ring
    rw [h4]
    ring

/-- Witness for C7 (amended) at latitude 54.9. -/
theorem projection_formula_and_linear_rendering_witness :
    |(549 / 10 : ℚ)| < MAX_LATITUDE ∧
    (project (549 / 10) (587332 / 10000) 8
        = .tile 8 (tile_x (587332 / 10000) 8) (tile_y (549 / 10) 8) ∧
     mapPixelY defaultGeometry (549 / 10) ((1 + 2) / 2)
        = (mapPixelY defaultGeometry (549 / 10) 1
           + mapPixelY defaultGeometry (549 / 10) 2) / 2) := by
  have hlt : |(549 / 10 : ℚ)| < MAX_LATITUDE :=
    of_decide_eq_true (by with_unfolding_all rfl)
  have h := projection_formula_and_linear_rendering (549 / 10) (587332 / 10000) 8 hlt
  exact ⟨hlt, h.1, h.2 defaultGeometry (549 / 10) 1 2⟩
